import Mathlib

/-!
Verification of the OppByAccount Lightning components.

The repository holds three component variants:
  * variant 1: the class with the buildColumns column parser
    (XLP_POC_AccOppHierarchyTable.js, lines 7-291);
  * variant 2: the class with hardcoded COLUMNS and a forced page reload
    after save (XLP_POC_AccOppHierarchyTable.js, lines 315-406);
  * variant 3: XLP_POC_AccountHierarchyOpportunities.js.

JavaScript strings are modelled through their character lists, JavaScript
numbers holding integral values as Int or Nat, and possibly-absent values
as Option.  Names ending in V2 model variant 2; names ending in Opps model
variant 3; unsuffixed names model variant 1 (shared definitions model lines
that are textually identical in the variants).
-/

/-! ## JavaScript string primitives -/

/-- Models String.prototype.split with separator "," : "".split gives one
empty token, and every comma opens a new token. -/
def splitOnComma : List Char → List (List Char)
  | [] => [[]]
  | c :: rest =>
      let r := splitOnComma rest
      if c = ',' then [] :: r
      else
        match r with
        | t :: ts => (c :: t) :: ts
        | [] => [[c]]

/-- Models String.prototype.trim: leading and trailing whitespace removed. -/
def trimChars (l : List Char) : List Char :=
  ((l.dropWhile Char.isWhitespace).reverse.dropWhile Char.isWhitespace).reverse

/-- Pattern match at the head of a character list. -/
def matchesHead : List Char → List Char → Bool
  | [], _ => true
  | _ :: _, [] => false
  | p :: ps, c :: cs => (p = c) && matchesHead ps cs

/-- Substring occurrence on character lists. -/
def hasSub (pat : List Char) : List Char → Bool
  | [] => matchesHead pat []
  | c :: cs => matchesHead pat (c :: cs) || hasSub pat cs

/-- Models field.toLowerCase().includes(pat) from buildColumns. -/
def includesLower (field pat : String) : Bool :=
  hasSub pat.data (field.data.map Char.toLower)

/-- Models Array.prototype.join(sep): empty array joins to the empty
string, otherwise the elements with sep between them. -/
def jsJoin (sep : String) : List String → String
  | [] => ""
  | x :: xs => xs.foldl (fun acc y => acc ++ sep ++ y) x

/-! ## ColumnSpecParser (variant 1, buildColumns, lines 49-126) -/

/-- The typeAttributes of a url column: label.fieldName and target. -/
structure TypeAttributes where
  labelFieldName : String
  target : String
deriving DecidableEq, Repr

/-- One entry pushed onto columnsDef.  The url columns of the source set no
editable key, which the datatable reads as not editable, so editable is
false for them. -/
structure ColumnDef where
  label : String
  fieldName : String
  type : String
  editable : Bool
  typeAttributes : Option TypeAttributes
deriving DecidableEq, Repr

/-- The default column string of buildColumns, line 54. -/
def defaultColumns : String := "Name,StageName,RelatedAccount"

/-- Lines 52-55: the raw string actually parsed.  none models a missing or
non-string columns attribute; a string whose trim is empty is replaced by
the default as well, since an empty trimmed string is falsy. -/
def effectiveRaw (cols : Option String) : String :=
  match cols with
  | some s => if trimChars s.data ≠ [] then s else defaultColumns
  | none => defaultColumns

/-- Line 56: split on commas, trim every part, drop the empty parts. -/
def parseTokens (raw : String) : List String :=
  ((splitOnComma raw.data).map (fun t => String.mk (trimChars t))).filter
    (fun t => t ≠ "")

/-- Lines 58-125: the body of the forEach, one ColumnDef per token,
first matching branch wins.  There is no branch for RelatedAccount: a
RelatedAccount token reaches the final fallback branch. -/
def resolveToken (field : String) : ColumnDef :=
  if field = "Name" then
    { label := "Opportunity Name", fieldName := "oppLink", type := "url",
      editable := false, typeAttributes := some ⟨"Name", "_blank"⟩ }
  else if field = "Broker" then
    { label := "Broker", fieldName := "brokerLink", type := "url",
      editable := false, typeAttributes := some ⟨"BrokerName", "_blank"⟩ }
  else if field = "Insured" then
    { label := "Insured", fieldName := "insuredLink", type := "url",
      editable := false, typeAttributes := some ⟨"InsuredName", "_blank"⟩ }
  else if field = "Owner" then
    { label := "Owner", fieldName := "ownerLink", type := "url",
      editable := false, typeAttributes := some ⟨"OwnerName", "_blank"⟩ }
  else if field = "XLP_GrossPremiumAXAXLAmount__c" then
    { label := "Gross Premium Amount", fieldName := "XLP_GrossPremiumAXAXLAmount__c",
      type := "currency", editable := true, typeAttributes := none }
  else
    { label := field, fieldName := field,
      type :=
        if includesLower field "date" then "date"
        else if includesLower field "amount" || includesLower field "premium" then "currency"
        else "text",
      editable := true, typeAttributes := none }

/-- buildColumns, lines 49-126: parse the effective raw string and resolve
every token in order.  The function reads no relation-context state, so its
output is the same in both relation contexts. -/
def buildColumns (cols : Option String) : List ColumnDef :=
  (parseTokens (effectiveRaw cols)).map resolveToken

/-- The five-token default column list that the specification documents;
the parser applied to it, for comparison with the default the code uses. -/
def specFiveDefault : List ColumnDef :=
  (parseTokens "Name, StageName, RelatedAccount, Amount, CloseDate").map resolveToken

/-! ## PaginationState (identical in variants 1 and 2, lines 192-218 and
349-375, except for totalPages) -/

structure PageState (α : Type) where
  allData : List α
  pageSize : Nat
  pageNumber : Int
  tableData : List α

/-- ECMAScript Array.prototype.slice(start, stop): negative indices count
from the end of the array, and both indices clamp to [0, length]. -/
def jsSlice {α : Type} (l : List α) (s e : Int) : List α :=
  let len : Int := (l.length : Int)
  let s1 : Int := if s < 0 then max (len + s) 0 else min s len
  let e1 : Int := if e < 0 then max (len + e) 0 else min e len
  (l.take e1.toNat).drop s1.toNat

/-- updatePagination, lines 192-196: tableData becomes the slice from
start = (pageNumber - 1) * pageSize to start + pageSize. -/
def updatePagination {α : Type} (st : PageState α) : PageState α :=
  { st with
    tableData :=
      jsSlice st.allData ((st.pageNumber - 1) * (st.pageSize : Int))
        ((st.pageNumber - 1) * (st.pageSize : Int) + (st.pageSize : Int)) }

/-- handleNext, lines 198-201: increment the counter, no upper clamp. -/
def handleNext {α : Type} (st : PageState α) : PageState α :=
  updatePagination { st with pageNumber := st.pageNumber + 1 }

/-- handlePrev, lines 203-206: decrement the counter, no lower clamp. -/
def handlePrev {α : Type} (st : PageState α) : PageState α :=
  updatePagination { st with pageNumber := st.pageNumber - 1 }

/-- The data branch of wiredOpps, lines 176-178: replace allData, reset
pageNumber to 1, recompute the visible page. -/
def loadReset {α : Type} (st : PageState α) (records : List α) : PageState α :=
  updatePagination { st with allData := records, pageNumber := 1 }

/-- Ceiling division on Nat; models Math.ceil(len / pageSize) for the
integral operands the component uses. -/
def ceilDivN (a b : Nat) : Nat := (a + b - 1) / b

/-- totalPages of variant 1, lines 208-210: Math.ceil(length / pageSize)
with the falsy value 0 replaced by 1. -/
def totalPages {α : Type} (st : PageState α) : Int :=
  let t : Int := (ceilDivN st.allData.length st.pageSize : Int)
  if t = 0 then 1 else t

/-- totalPages of variant 2, lines 365-367: no floor of 1. -/
def totalPagesV2 {α : Type} (st : PageState α) : Int :=
  (ceilDivN st.allData.length st.pageSize : Int)

/-- isFirstPage, lines 212-214 (identical in variant 2). -/
def isFirstPage {α : Type} (st : PageState α) : Bool :=
  decide (st.pageNumber ≤ 1)

/-- isLastPage of variant 1, lines 216-218: pageNumber at or past
totalPages. -/
def isLastPage {α : Type} (st : PageState α) : Bool :=
  decide (totalPages st ≤ st.pageNumber)

/-- isLastPage of variant 2, lines 373-375, against the unfloored count. -/
def isLastPageV2 {α : Type} (st : PageState α) : Bool :=
  decide (totalPagesV2 st ≤ st.pageNumber)

/-! ## Error shapes and reduceError -/

/-- One element of an error body array; its message key may be absent. -/
structure SubError where
  message : Option String
deriving DecidableEq, Repr

/-- The body of a structured error: an array of sub-errors, an object whose
message is a string, or some other truthy body. -/
inductive ErrBody where
  | arr (subs : List SubError)
  | withMessage (m : String)
  | otherBody
deriving DecidableEq, Repr

/-- A structured (non-null) error object: a possibly absent body and a
possibly absent flat message string. -/
structure JsError where
  body : Option ErrBody
  message : Option String
deriving DecidableEq, Repr

/-- reduceError of variant 1, lines 276-286.  The argument is the raw
caught value: none models null or undefined.  Array.prototype.join renders
an absent sub-error message as the empty string, and the final
error.message fallback treats the empty string as falsy. -/
def reduceError (error : Option JsError) : String :=
  match error with
  | none => "Unknown error"
  | some err =>
    match err.body with
    | some (ErrBody.arr subs) => jsJoin ", " (subs.map (fun s => s.message.getD ""))
    | some (ErrBody.withMessage m) => m
    | _ =>
      match err.message with
      | some m => if m = "" then "Unknown error" else m
      | none => "Unknown error"

/-- The behaviour of reduceError of variant 2, lines 401-405, on a non-null
error object: no array body and no string body.message fall directly to
the generic string, ignoring any flat error.message. -/
def reduceErrorV2body (error : JsError) : String :=
  match error.body with
  | some (ErrBody.arr subs) => jsJoin ", " (subs.map (fun s => s.message.getD ""))
  | some (ErrBody.withMessage m) => m
  | _ => "Unknown error"

/-- reduceError of variant 2, lines 401-405, on the raw caught value: it
reads error.body with no null guard, so a null or undefined argument
raises a TypeError, modelled as the error case. -/
def reduceErrorV2 (error : Option JsError) : Except Unit String :=
  match error with
  | none => Except.error ()
  | some err => Except.ok (reduceErrorV2body err)

/-- reduceError of variant 3, XLP_POC_AccountHierarchyOpportunities.js
lines 113-123; its branches are those of variant 1. -/
def reduceErrorOpps (error : Option JsError) : String :=
  match error with
  | none => "Unknown error"
  | some err =>
    match err.body with
    | some (ErrBody.arr subs) => jsJoin ", " (subs.map (fun s => s.message.getD ""))
    | some (ErrBody.withMessage m) => m
    | _ =>
      match err.message with
      | some m => if m = "" then "Unknown error" else m
      | none => "Unknown error"

/-! ## Save flow (handleSave of variants 1 and 2) -/

/-- One dispatched ShowToastEvent. -/
structure Toast where
  title : String
  message : String
  variant : String
deriving DecidableEq, Repr

/-- The component state handleSave touches.  toasts collects the dispatched
toast events in order, refreshCount counts refreshApex calls and
pageReloads counts window.location.reload calls; δ is the type of one
draft value object. -/
structure CompState (δ : Type) where
  isLoading : Bool
  draftValues : List δ
  toasts : List Toast
  refreshCount : Nat
  pageReloads : Nat

/-- Line 234 and line 383: the first statement of handleSave sets the
loading flag. -/
def handleSaveStart {δ : Type} (st : CompState δ) : CompState δ :=
  { st with isLoading := true }

/-- handleSave of variant 1, lines 233-263.  The awaited remote calls are
modelled by their outcomes saveRes and reloadRes; a rejection carries the
caught value (none models a thrown null).  try: on save success a success
toast, the draft clear, then the refreshApex call whose own rejection also
lands in the catch; catch: an error toast via reduceError; finally: the
loading flag cleared on every path. -/
def handleSave {δ : Type} (st : CompState δ) (eventDrafts : List δ)
    (saveRes : Except (Option JsError) Unit)
    (reloadRes : Except (Option JsError) Unit) : CompState δ :=
  let st1 := handleSaveStart st
  let st2 :=
    match saveRes with
    | Except.ok _ =>
        let stS := { st1 with
          toasts := st1.toasts ++ [(⟨"Success", "Changes saved successfully", "success"⟩ : Toast)],
          draftValues := [] }
        let stR := { stS with refreshCount := stS.refreshCount + 1 }
        match reloadRes with
        | Except.ok _ => stR
        | Except.error e =>
            { stR with toasts := stR.toasts ++ [(⟨"Error updating opportunities", reduceError e, "error"⟩ : Toast)] }
    | Except.error e =>
        { st1 with toasts := st1.toasts ++ [(⟨"Error updating opportunities", reduceError e, "error"⟩ : Toast)] }
  { st2 with isLoading := false }

/-- handleSave of variant 2, lines 382-395.  No finally block: on success a
success toast and a forced full page reload, with the loading flag left
true; only the catch path resets the flag.  The caught value is an error
object, as the write collaborator rejects with one. -/
def handleSaveV2 {δ : Type} (st : CompState δ) (eventDrafts : List δ)
    (saveRes : Except JsError Unit) : CompState δ :=
  let st1 := handleSaveStart st
  match saveRes with
  | Except.ok _ =>
      { st1 with
        toasts := st1.toasts ++ [(⟨"Success", "Updated successfully", "success"⟩ : Toast)],
        pageReloads := st1.pageReloads + 1 }
  | Except.error e =>
      { st1 with
        toasts := st1.toasts ++ [(⟨"Error", reduceErrorV2body e, "error"⟩ : Toast)],
        isLoading := false }

/-! ## RecordEnricher (the data branch of wiredOpps) -/

/-- A JavaScript field value as far as the enrichment inspects it. -/
inductive JField where
  | null
  | undef
  | str (s : String)
deriving DecidableEq, Repr

/-- A nested relationship object, carrying its Name field. -/
structure RelObj where
  Name : JField
deriving DecidableEq, Repr

/-- A raw record from the read collaborator: the record id plus the
relationship id fields and nested relationship objects the enrichment
reads.  none models an absent nested object. -/
structure RawOpp where
  Id : String
  XLP_BrokerName__c : JField
  XLP_BrokerName__r : Option RelObj
  XLP_ClientName__c : JField
  XLP_ClientName__r : Option RelObj
  OwnerId : JField
  Owner : Option RelObj
deriving DecidableEq, Repr

/-- The idiom id ? slash + id : null used for the broker, insured and
owner links: a truthy (non-empty) string id yields a path, anything else
yields null. -/
def derivedLink : JField → JField
  | JField.str s => if s = "" then JField.null else JField.str ("/" ++ s)
  | _ => JField.null

/-- The display record of variant 1: the spread raw record plus the
derived link and name fields, lines 157-174. -/
structure DisplayOpp where
  base : RawOpp
  oppLink : JField
  brokerLink : JField
  BrokerName : JField
  insuredLink : JField
  InsuredName : JField
  ownerLink : JField
  OwnerName : JField
deriving DecidableEq, Repr

/-- The per-record map of the wiredOpps data branch of variant 1, lines
147-175: a missing nested object yields a null name, a falsy id yields a
null link. -/
def wiredOppsMap (opp : RawOpp) : DisplayOpp :=
  { base := opp
    oppLink := JField.str ("/" ++ opp.Id)
    brokerLink := derivedLink opp.XLP_BrokerName__c
    BrokerName :=
      match opp.XLP_BrokerName__r with
      | some r => r.Name
      | none => JField.null
    insuredLink := derivedLink opp.XLP_ClientName__c
    InsuredName :=
      match opp.XLP_ClientName__r with
      | some r => r.Name
      | none => JField.null
    ownerLink := derivedLink opp.OwnerId
    OwnerName :=
      match opp.Owner with
      | some r => r.Name
      | none => JField.null }

/-- The display record of variant 2, lines 334-339. -/
structure DisplayOppV2 where
  base : RawOpp
  oppLink : JField
  accountLink : JField
  AccountName : JField
deriving DecidableEq, Repr

/-- The per-record map of the wiredOpps data branch of variant 2, lines
334-339: a missing nested object yields the empty string as AccountName,
not null. -/
def wiredOppsMapV2 (opp : RawOpp) : DisplayOppV2 :=
  { base := opp
    oppLink := JField.str ("/" ++ opp.Id)
    accountLink := derivedLink opp.XLP_BrokerName__c
    AccountName :=
      match opp.XLP_BrokerName__r with
      | some r => r.Name
      | none => JField.str "" }

/-- A raw record with no relationship data at all: every relationship id
is undefined and every nested object absent. -/
def bareOpp : RawOpp :=
  { Id := "006000000000001"
    XLP_BrokerName__c := JField.undef
    XLP_BrokerName__r := none
    XLP_ClientName__c := JField.undef
    XLP_ClientName__r := none
    OwnerId := JField.undef
    Owner := none }

/-- A raw record lacks relationship data when each relationship id is null
or undefined and each nested relationship object is absent. -/
def lacksRelData (opp : RawOpp) : Prop :=
  (opp.XLP_BrokerName__c = JField.undef ∨ opp.XLP_BrokerName__c = JField.null)
  ∧ opp.XLP_BrokerName__r = none
  ∧ (opp.XLP_ClientName__c = JField.undef ∨ opp.XLP_ClientName__c = JField.null)
  ∧ opp.XLP_ClientName__r = none
  ∧ (opp.OwnerId = JField.undef ∨ opp.OwnerId = JField.null)
  ∧ opp.Owner = none

/-! ## normalizeBoolean (lines 288-290) and its wired getters (lines
224-230) -/

/-- A host-supplied attribute value as strict equality distinguishes it. -/
inductive ApiValue where
  | null
  | undef
  | bool (b : Bool)
  | str (s : String)
  | num (n : Int)
  | obj
deriving DecidableEq, Repr

/-- normalizeBoolean, lines 288-290: value === true || value === 'true',
with the strict triple-equals of the source. -/
def normalizeBoolean (value : ApiValue) : Bool :=
  decide (value = ApiValue.bool true) || decide (value = ApiValue.str "true")

/-- The getter wired as requireExpiryDate, lines 224-226. -/
def normalizedRequireExpiryDate (requireExpiryDate : ApiValue) : Bool :=
  normalizeBoolean requireExpiryDate

/-- The getter wired as requireInceptionDate, lines 228-230. -/
def normalizedRequireInceptionDate (requireInceptionDate : ApiValue) : Bool :=
  normalizeBoolean requireInceptionDate

/-- The empty-record-set pagination state after a load, used as a concrete
instance. -/
def emptyState : PageState Nat := ⟨[], 10, 1, []⟩

/-- A concrete component state before a save. -/
def initComp : CompState Unit := ⟨false, [], [], 0, 0⟩

/-! ## Helper lemmas -/

theorem len_pos_of_ne_empty (s : String) (h : s ≠ "") : 0 < s.length := by
  cases s with
  | mk data =>
    cases data with
    | nil => exact absurd rfl h
    | cons c cs => simp [String.length]

theorem ne_empty_of_len_pos (s : String) (h : 0 < s.length) : s ≠ "" := by
  intro he
  rw [he] at h
  simp [String.length] at h

/-- Array.prototype.join never shortens its first element. -/
theorem jsJoin_head_le (sep x : String) (xs : List String) :
    x.length ≤ (jsJoin sep (x :: xs)).length := by
  have key : ∀ (ys : List String) (acc : String),
      acc.length ≤ (ys.foldl (fun a y => a ++ sep ++ y) acc).length := by
    intro ys
    induction ys with
    | nil => intro acc; simp
    | cons y ys ih =>
        intro acc
        simp only [List.foldl_cons]
        calc acc.length ≤ (acc ++ sep ++ y).length := by
              rw [String.length_append, String.length_append]; omega
          _ ≤ _ := ih (acc ++ sep ++ y)
  exact key xs x

theorem toNat_mul_natCast (a : Int) (P : Nat) (h : 0 ≤ a) :
    (a * (P : Int)).toNat = a.toNat * P := by
  obtain ⟨n, hn⟩ := Int.eq_ofNat_of_zero_le h
  rw [hn, ← Nat.cast_mul, Int.toNat_natCast, Int.toNat_natCast]

/-- For a non-negative start, the JavaScript slice of width P is the
drop-then-take window. -/
theorem jsSlice_nonneg {α : Type} (l : List α) (s : Int) (P : Nat) (hs : 0 ≤ s) :
    jsSlice l s (s + (P : Int)) = (l.drop s.toNat).take P := by
  unfold jsSlice
  have h1 : ¬ s < 0 := by omega
  have h2 : ¬ s + (P : Int) < 0 := by omega
  simp only [h1, h2, if_false]
  have e1 : (min (s + (P : Int)) ((l.length : Nat) : Int)).toNat = min (s.toNat + P) l.length := by
    omega
  have e2 : (min s ((l.length : Nat) : Int)).toNat = min s.toNat l.length := by omega
  rw [e1, e2]
  rcases Nat.le_total s.toNat l.length with hle | hge
  · rw [Nat.min_eq_left hle]
    have h3 : l.take (min (s.toNat + P) l.length) = l.take (s.toNat + P) := by
      rcases Nat.le_total (s.toNat + P) l.length with h | h
      · rw [Nat.min_eq_left h]
      · rw [Nat.min_eq_right h, List.take_length, List.take_of_length_le h]
    rw [h3, List.drop_take]
    congr 1
    omega
  · rw [Nat.min_eq_right hge, Nat.min_eq_right (by omega : l.length ≤ s.toNat + P)]
    rw [List.take_length, List.drop_eq_nil_of_le hge, List.drop_eq_nil_of_le (le_refl _)]
    simp

/-- A slice whose stop index is 0 is empty. -/
theorem jsSlice_zero_stop {α : Type} (l : List α) (s : Int) : jsSlice l s 0 = [] := by
  simp only [jsSlice]
  have he : (if (0 : Int) < 0 then max ((l.length : Int) + 0) 0 else min 0 ((l.length : Int))) = 0 := by
    rw [if_neg (by omega)]
    omega
  rw [he]
  simp

theorem one_le_totalPages {α : Type} (st : PageState α) : 1 ≤ totalPages st := by
  simp only [totalPages]
  have h0 : (0 : Int) ≤ (ceilDivN st.allData.length st.pageSize : Int) := Int.natCast_nonneg _
  split <;> omega

theorem le_ceilDivN_mul (len P : Nat) (hP : 0 < P) : len ≤ ceilDivN len P * P := by
  by_contra hcon
  push_neg at hcon
  have h1 : (ceilDivN len P + 1) * P ≤ len + P - 1 := by
    rw [Nat.succ_mul]
    omega
  have h2 : ceilDivN len P + 1 ≤ (len + P - 1) / P := (Nat.le_div_iff_mul_le hP).mpr h1
  unfold ceilDivN at h2
  omega

/-- A page counter past totalPages shows an empty slice. -/
theorem updatePagination_empty {α : Type} (st : PageState α) (hP : 0 < st.pageSize)
    (h : totalPages st < st.pageNumber) : (updatePagination st).tableData = [] := by
  have h1 : 1 ≤ totalPages st := one_le_totalPages st
  have hp0 : 0 ≤ st.pageNumber - 1 := by omega
  have hform : (updatePagination st).tableData
      = (st.allData.drop ((st.pageNumber - 1) * (st.pageSize : Int)).toNat).take st.pageSize :=
    jsSlice_nonneg st.allData _ st.pageSize (mul_nonneg hp0 (Int.natCast_nonneg _))
  have hmul : ((st.pageNumber - 1) * (st.pageSize : Int)).toNat
      = (st.pageNumber - 1).toNat * st.pageSize := toNat_mul_natCast _ _ hp0
  have hlen : st.allData.length ≤ (st.pageNumber - 1).toNat * st.pageSize := by
    by_cases hq : ceilDivN st.allData.length st.pageSize = 0
    · have hz : st.allData.length = 0 := by
        unfold ceilDivN at hq
        have h2 := (Nat.div_eq_zero_iff hP).mp hq
        omega
      omega
    · have htp : totalPages st = (ceilDivN st.allData.length st.pageSize : Int) := by
        unfold totalPages
        rw [if_neg (by exact_mod_cast hq)]
      rw [htp] at h
      have h3 : ceilDivN st.allData.length st.pageSize ≤ (st.pageNumber - 1).toNat := by omega
      have h4 := le_ceilDivN_mul st.allData.length st.pageSize hP
      have h5 : ceilDivN st.allData.length st.pageSize * st.pageSize
          ≤ (st.pageNumber - 1).toNat * st.pageSize := Nat.mul_le_mul_right _ h3
      omega
  rw [hform, hmul, List.drop_eq_nil_of_le hlen, List.take_nil]

/-- handlePrev from the first page gives pageNumber 0 whose slice runs from
minus pageSize to 0 and is empty. -/
theorem handlePrev_first_empty {α : Type} (st : PageState α) (h : st.pageNumber = 1) :
    (handlePrev st).tableData = [] := by
  have hform : (handlePrev st).tableData
      = jsSlice st.allData ((st.pageNumber - 1 - 1) * (st.pageSize : Int))
          ((st.pageNumber - 1 - 1) * (st.pageSize : Int) + (st.pageSize : Int)) := rfl
  rw [hform, h]
  have he : ((1 : Int) - 1 - 1) * (st.pageSize : Int) + (st.pageSize : Int) = 0 := by ring
  rw [he, jsSlice_zero_stop]

/-- Splicing the first k windows of width P back together gives the first
k * P elements. -/
theorem flatten_pages {α : Type} (l : List α) (P : Nat) :
    ∀ k, (((List.range k).map (fun i => (l.drop (i * P)).take P)).flatten) = l.take (k * P) := by
  intro k
  induction k with
  | zero => simp
  | succ k ih =>
      rw [List.range_succ, List.map_append, List.flatten_append]
      simp only [List.map_cons, List.map_nil, List.flatten_cons, List.flatten_nil, ih]
      rw [List.append_nil, ← List.take_add, Nat.succ_mul]

/-! ## Claim theorems -/

/-- C1 counterexample: buildColumns has no RelatedAccount branch, so for
the spec string RelatedAccount the single resulting column is the text
fallback column labeled RelatedAccount, not a url column labeled
Insured Account or Broker Account. -/
theorem buildColumns_relatedAccount_cex :
    buildColumns (some "RelatedAccount")
      = [{ label := "RelatedAccount", fieldName := "RelatedAccount", type := "text",
           editable := true, typeAttributes := none }]
    ∧ ("text" : String) ≠ "url"
    ∧ ("RelatedAccount" : String) ≠ "Insured Account"
    ∧ ("RelatedAccount" : String) ≠ "Broker Account" := by
  decide

/-- C1 (amended): for every column-spec input whose token list contains
RelatedAccount, buildColumns resolves that token through the fallback rule
to a text-rendered, editable column whose label and fieldName are both
RelatedAccount, with no url attributes; buildColumns reads no relation
context, so this holds in both relation contexts. -/
theorem buildColumns_relatedAccount_fallback (cols : Option String)
    (h : "RelatedAccount" ∈ parseTokens (effectiveRaw cols)) :
    ({ label := "RelatedAccount", fieldName := "RelatedAccount", type := "text",
       editable := true, typeAttributes := none } : ColumnDef) ∈ buildColumns cols := by
  have hres : resolveToken "RelatedAccount"
      = { label := "RelatedAccount", fieldName := "RelatedAccount", type := "text",
          editable := true, typeAttributes := none } := by decide
  have hmem := List.mem_map_of_mem resolveToken h
  rw [hres] at hmem
  exact hmem

/-- C1 witness: the fallback column is produced for the concrete input
RelatedAccount. -/
theorem buildColumns_relatedAccount_fallback_witness :
    ({ label := "RelatedAccount", fieldName := "RelatedAccount", type := "text",
       editable := true, typeAttributes := none } : ColumnDef)
      ∈ buildColumns (some "RelatedAccount") :=
  buildColumns_relatedAccount_fallback (some "RelatedAccount") (by decide)

/-- C2 counterexample: the empty column-spec string substitutes the three
token default of line 54, not the five-token default the specification
documents, so the output has three columns where the claim expects the
five derived from Name, StageName, RelatedAccount, Amount, CloseDate. -/
theorem buildColumns_default_cex :
    buildColumns (some "") ≠ specFiveDefault
    ∧ (buildColumns (some "")).length = 3
    ∧ specFiveDefault.length = 5 := by
  decide

/-- C2 (amended): for every empty, whitespace-only or missing or non-string
column-spec input, buildColumns substitutes the default token list
Name,StageName,RelatedAccount and yields exactly the three column
definitions derived from those tokens in that order. -/
theorem buildColumns_default_substitution (s : String) (h : trimChars s.data = []) :
    buildColumns (some s) = buildColumns none
    ∧ buildColumns none
        = [{ label := "Opportunity Name", fieldName := "oppLink", type := "url",
             editable := false, typeAttributes := some ⟨"Name", "_blank"⟩ },
           { label := "StageName", fieldName := "StageName", type := "text",
             editable := true, typeAttributes := none },
           { label := "RelatedAccount", fieldName := "RelatedAccount", type := "text",
             editable := true, typeAttributes := none }] := by
  constructor
  · have he : effectiveRaw (some s) = defaultColumns := by
      simp [effectiveRaw, h]
    unfold buildColumns
    rw [he]
    rfl
  · decide

/-- C2 witness: a whitespace-only spec string yields the default columns. -/
theorem buildColumns_default_substitution_witness :
    buildColumns (some "   ") = buildColumns none
    ∧ buildColumns none
        = [{ label := "Opportunity Name", fieldName := "oppLink", type := "url",
             editable := false, typeAttributes := some ⟨"Name", "_blank"⟩ },
           { label := "StageName", fieldName := "StageName", type := "text",
             editable := true, typeAttributes := none },
           { label := "RelatedAccount", fieldName := "RelatedAccount", type := "text",
             editable := true, typeAttributes := none }] :=
  buildColumns_default_substitution "   " (by decide)

/-- C3 counterexample: from page 1 of 25 records with pageSize 10, two
handlePrev calls reach pageNumber minus 1, where the JavaScript slice
interprets the negative bounds from the end of the array and the visible
records are not empty. -/
theorem pagination_prev_negative_cex :
    (handlePrev (handlePrev (⟨List.range 25, 10, 1, []⟩ : PageState Nat))).pageNumber = -1
    ∧ (handlePrev (handlePrev (⟨List.range 25, 10, 1, []⟩ : PageState Nat))).tableData
        = ((List.range 25).drop 5).take 10
    ∧ (handlePrev (handlePrev (⟨List.range 25, 10, 1, []⟩ : PageState Nat))).tableData ≠ [] := by
  decide

/-- C3 (amended): after handleNext, a pageNumber greater than totalPages
shows an empty visible sequence, and after a single handlePrev from page 1
(pageNumber 0) the visible sequence is empty; a further handlePrev into
negative pageNumbers can show a non-empty wrapped slice, because the
JavaScript slice reads negative indices from the end of the array. -/
theorem pagination_out_of_range_amended (α : Type) :
    (∀ st : PageState α, 0 < st.pageSize →
        totalPages st < (handleNext st).pageNumber → (handleNext st).tableData = [])
    ∧ (∀ st : PageState α, st.pageNumber = 1 → (handlePrev st).tableData = []) := by
  constructor
  · intro st hP h
    have hshape : (handleNext st).tableData
        = (updatePagination { st with pageNumber := st.pageNumber + 1 }).tableData := rfl
    rw [hshape]
    exact updatePagination_empty { st with pageNumber := st.pageNumber + 1 } hP h
  · exact fun st h => handlePrev_first_empty st h

/-- C3 witness: concrete checks at 25 records, pageSize 10: page 4 after
handleNext is empty, and handlePrev from page 1 is empty. -/
theorem pagination_out_of_range_amended_witness :
    (handleNext (⟨List.range 25, 10, 3, []⟩ : PageState Nat)).tableData = []
    ∧ (handlePrev (⟨List.range 25, 10, 1, []⟩ : PageState Nat)).tableData = [] :=
  ⟨(pagination_out_of_range_amended Nat).1 ⟨List.range 25, 10, 3, []⟩ (by decide) (by decide),
   (pagination_out_of_range_amended Nat).2 ⟨List.range 25, 10, 1, []⟩ rfl⟩

/-- C4 (confirmed): for every state with positive pageSize and in-range
pageNumber at least 1, updatePagination (to which loadReset, handleNext and
handlePrev all delegate) shows exactly the window of pageSize records
starting at (pageNumber - 1) * pageSize, and the concatenation of the
visible pages for pageNumber 1 to totalPages is exactly the full record
set, with no record lost or duplicated. -/
theorem pagination_invariant (α : Type) :
    (∀ st : PageState α, 0 < st.pageSize → 1 ≤ st.pageNumber →
        (updatePagination st).tableData
          = (st.allData.drop ((st.pageNumber - 1).toNat * st.pageSize)).take st.pageSize)
    ∧ (∀ (l : List α) (P : Nat), 0 < P →
        (((List.range (totalPages (⟨l, P, 1, []⟩ : PageState α)).toNat).map
            (fun i => (updatePagination (⟨l, P, ((i : Nat) : Int) + 1, []⟩ : PageState α)).tableData)).flatten)
          = l) := by
  have part1 : ∀ st : PageState α, 0 < st.pageSize → 1 ≤ st.pageNumber →
      (updatePagination st).tableData
        = (st.allData.drop ((st.pageNumber - 1).toNat * st.pageSize)).take st.pageSize := by
    intro st hP hp
    have hp0 : 0 ≤ st.pageNumber - 1 := by omega
    have hform : (updatePagination st).tableData
        = jsSlice st.allData ((st.pageNumber - 1) * (st.pageSize : Int))
            ((st.pageNumber - 1) * (st.pageSize : Int) + (st.pageSize : Int)) := rfl
    rw [hform, jsSlice_nonneg st.allData _ st.pageSize (mul_nonneg hp0 (Int.natCast_nonneg _)),
      toNat_mul_natCast _ _ hp0]
  refine ⟨part1, ?_⟩
  intro l P hP
  have hbody : ∀ i : Nat,
      (updatePagination (⟨l, P, ((i : Nat) : Int) + 1, []⟩ : PageState α)).tableData
        = (l.drop (i * P)).take P := by
    intro i
    have h := part1 ⟨l, P, ((i : Nat) : Int) + 1, []⟩ hP
      (by show (1 : Int) ≤ ((i : Nat) : Int) + 1; have := Int.natCast_nonneg i; omega)
    rw [show (((i : Nat) : Int) + 1 - 1).toNat = i by omega] at h
    exact h
  rw [show (fun i => (updatePagination (⟨l, P, ((i : Nat) : Int) + 1, []⟩ : PageState α)).tableData)
      = (fun i => (l.drop (i * P)).take P) from funext hbody]
  rw [flatten_pages]
  apply List.take_of_length_le
  by_cases hq : ceilDivN l.length P = 0
  · have hz : l.length = 0 := by
      unfold ceilDivN at hq
      have h2 := (Nat.div_eq_zero_iff hP).mp hq
      omega
    omega
  · have htp : (totalPages (⟨l, P, 1, []⟩ : PageState α)).toNat = ceilDivN l.length P := by
      simp only [totalPages]
      rw [if_neg (by exact_mod_cast hq)]
      exact Int.toNat_natCast _
    rw [htp]
    exact le_ceilDivN_mul l.length P hP

/-- C4 witness: the slice formula and the full-coverage flatten at 25
records with pageSize 10, page 3. -/
theorem pagination_invariant_witness :
    (updatePagination (⟨List.range 25, 10, 3, []⟩ : PageState Nat)).tableData
      = ((List.range 25).drop (((3 : Int) - 1).toNat * 10)).take 10
    ∧ (((List.range (totalPages (⟨List.range 25, 10, 1, []⟩ : PageState Nat)).toNat).map
        (fun i => (updatePagination (⟨List.range 25, 10, ((i : Nat) : Int) + 1, []⟩ : PageState Nat)).tableData)).flatten)
      = List.range 25 :=
  ⟨(pagination_invariant Nat).1 ⟨List.range 25, 10, 3, []⟩ (by decide) (by decide),
   (pagination_invariant Nat).2 (List.range 25) 10 (by decide)⟩

/-- C5 counterexample: totalPages of variant 2 has no floor of 1, so on the
empty record set it is 0, not 1. -/
theorem totalPagesV2_empty_cex :
    totalPagesV2 emptyState = 0 ∧ totalPagesV2 emptyState ≠ 1 := by
  decide

/-- C5 (amended): on the empty record set, totalPages of variant 1 is 1
and, at the post-load pageNumber 1, isFirstPage and isLastPage are both
true; totalPages of variant 2 is 0 on the empty record set (its isLastPage
is still true at pageNumber 1). -/
theorem totalPages_empty_amended (α : Type) (st : PageState α) (h : st.allData = []) :
    totalPages st = 1
    ∧ (st.pageNumber = 1 → isFirstPage st = true ∧ isLastPage st = true)
    ∧ totalPagesV2 st = 0
    ∧ (st.pageNumber = 1 → isLastPageV2 st = true) := by
  have hc : ceilDivN st.allData.length st.pageSize = 0 := by
    rw [h]
    show ceilDivN 0 st.pageSize = 0
    unfold ceilDivN
    rcases Nat.eq_zero_or_pos st.pageSize with h0 | h0
    · rw [h0]
    · exact (Nat.div_eq_zero_iff h0).mpr (by omega)
  have h1 : totalPages st = 1 := by
    simp only [totalPages, hc]
    rfl
  refine ⟨h1, fun hp => ⟨?_, ?_⟩, ?_, fun hp => ?_⟩
  · simp [isFirstPage, hp]
  · simp [isLastPage, hp, h1]
  · simp [totalPagesV2, hc]
  · simp [isLastPageV2, totalPagesV2, hc, hp]

/-- C5 witness: the empty loaded state at pageNumber 1. -/
theorem totalPages_empty_amended_witness :
    totalPages emptyState = 1
    ∧ (emptyState.pageNumber = 1 → isFirstPage emptyState = true ∧ isLastPage emptyState = true)
    ∧ totalPagesV2 emptyState = 0
    ∧ (emptyState.pageNumber = 1 → isLastPageV2 emptyState = true) :=
  totalPages_empty_amended Nat emptyState rfl

/-- C6 counterexample: in the success path of handleSave of variant 2 the
loading flag is still true after settlement: the function has no finally
block and relies on the forced full page reload instead. -/
theorem handleSaveV2_success_loading_cex :
    (handleSaveV2 initComp [] (Except.ok ())).isLoading = true := rfl

/-- C6 (amended): handleSave of variant 1 sets the loading flag true at
invocation and resets it false on settlement of every path (success, write
failure, and a success whose follow-up reload rejects), by its finally
block; handleSave of variant 2 also sets the flag at invocation but resets
it only on its failure path, leaving it true on success where the whole
page is forced to reload. -/
theorem handleSave_loading_flag_amended (δ : Type) (st : CompState δ) (d : List δ)
    (saveRes reloadRes : Except (Option JsError) Unit) (e2 : JsError) :
    (handleSaveStart st).isLoading = true
    ∧ (handleSave st d saveRes reloadRes).isLoading = false
    ∧ (handleSaveV2 st d (Except.error e2)).isLoading = false := by
  refine ⟨rfl, ?_, rfl⟩
  cases saveRes <;> cases reloadRes <;> rfl

/-- C8 (confirmed): for every pending draft set, a successful save in
variant 1 leaves the draft set empty, a success toast dispatched and the
refreshApex reload issued (whatever the reload outcome); in the
forced-reload variant 2 a successful save dispatches the success toast and
forces the full page reload that rebuilds all client state. -/
theorem handleSave_success_flow (δ : Type) (st : CompState δ) (d : List δ)
    (reloadRes : Except (Option JsError) Unit) :
    (handleSave st d (Except.ok ()) reloadRes).draftValues = []
    ∧ (⟨"Success", "Changes saved successfully", "success"⟩ : Toast)
        ∈ (handleSave st d (Except.ok ()) reloadRes).toasts
    ∧ (handleSave st d (Except.ok ()) reloadRes).refreshCount = st.refreshCount + 1
    ∧ (handleSaveV2 st d (Except.ok ())).pageReloads = st.pageReloads + 1
    ∧ (⟨"Success", "Updated successfully", "success"⟩ : Toast)
        ∈ (handleSaveV2 st d (Except.ok ())).toasts := by
  cases reloadRes <;>
    simp [handleSave, handleSaveV2, handleSaveStart, List.mem_append]

/-- C7 counterexample: reduceError of variant 1 returns the empty string on
an error whose body is the empty array, and reduceError of variant 2 reads
error.body without a null guard, so it throws on a null or undefined
argument instead of returning a string. -/
theorem reduceError_empty_string_cex :
    reduceError (some ⟨some (ErrBody.arr []), none⟩) = ""
    ∧ reduceErrorV2 none = Except.error () := ⟨rfl, rfl⟩

/-- C7 (amended): reduceError in variants 1 and 3 handles every input
without raising, including null and undefined, and the two variants agree
everywhere; the joined output is non-empty whenever the leading sub-error
message is non-empty, but it can be empty (empty sub-error array);
reduceError of variant 2 returns a string for every non-null error object
and throws a TypeError on null or undefined input. -/
theorem reduceError_amended :
    reduceError none = "Unknown error"
    ∧ reduceError (some ⟨some (ErrBody.arr [⟨some "A"⟩, ⟨some "B"⟩]), none⟩) = "A, B"
    ∧ (∀ e : JsError, ∃ s : String, reduceErrorV2 (some e) = Except.ok s)
    ∧ reduceErrorV2 none = Except.error ()
    ∧ (∀ e : Option JsError, reduceErrorOpps e = reduceError e)
    ∧ (∀ (b : Option ErrBody) (msg : Option String) (m : String) (rest : List SubError),
        b = some (ErrBody.arr ({ message := some m } :: rest)) → m ≠ "" →
        reduceError (some ⟨b, msg⟩) ≠ "") := by
  refine ⟨rfl, by decide, fun e => ⟨reduceErrorV2body e, rfl⟩, rfl, fun e => rfl, ?_⟩
  intro b msg m rest hb hm
  subst hb
  have hred : reduceError (some ⟨some (ErrBody.arr ({ message := some m } :: rest)), msg⟩)
      = jsJoin ", " (m :: rest.map (fun s => s.message.getD "")) := rfl
  rw [hred]
  apply ne_empty_of_len_pos
  have h1 := jsJoin_head_le ", " m (rest.map (fun s => s.message.getD ""))
  have h2 := len_pos_of_ne_empty m hm
  omega

/-- C7 witness: a two-message array body joins to a non-empty string, and
variant 2 applied to an error object does return a string. -/
theorem reduceError_amended_witness :
    reduceError (some ⟨some (ErrBody.arr [⟨some "A"⟩, ⟨some "B"⟩]), none⟩) ≠ ""
    ∧ (∃ s : String, reduceErrorV2 (some ⟨none, none⟩) = Except.ok s) :=
  ⟨reduceError_amended.2.2.2.2.2 (some (ErrBody.arr [⟨some "A"⟩, ⟨some "B"⟩])) none
      "A" [⟨some "B"⟩] rfl (by decide),
   reduceError_amended.2.2.1 ⟨none, none⟩⟩

/-- C9 counterexample: enrichment in variant 2 renders a missing nested
relationship object as the empty string AccountName, not as null. -/
theorem wiredOppsMapV2_empty_name_cex :
    (wiredOppsMapV2 bareOpp).AccountName = JField.str ""
    ∧ (wiredOppsMapV2 bareOpp).AccountName ≠ JField.null := by
  decide

/-- C9 (amended): for every raw record lacking relationship data,
enrichment (a total function, so it cannot raise) in variant 1 yields null
for all six derived link and name fields, and no derived link is ever the
empty-string path; in variant 2 the missing link is null but the missing
display name is the empty string, not null. -/
theorem enrichment_amended (opp : RawOpp) (h : lacksRelData opp) :
    (wiredOppsMap opp).brokerLink = JField.null
    ∧ (wiredOppsMap opp).BrokerName = JField.null
    ∧ (wiredOppsMap opp).insuredLink = JField.null
    ∧ (wiredOppsMap opp).InsuredName = JField.null
    ∧ (wiredOppsMap opp).ownerLink = JField.null
    ∧ (wiredOppsMap opp).OwnerName = JField.null
    ∧ (wiredOppsMapV2 opp).accountLink = JField.null
    ∧ (wiredOppsMapV2 opp).AccountName = JField.str ""
    ∧ (∀ (f : JField) (s : String), derivedLink f = JField.str s → s ≠ "") := by
  obtain ⟨hb, hbr, hc, hcr, ho, hor⟩ := h
  have hlink : ∀ f : JField, (f = JField.undef ∨ f = JField.null) → derivedLink f = JField.null := by
    intro f hf
    rcases hf with hf | hf <;> rw [hf] <;> rfl
  refine ⟨hlink _ hb, ?_, hlink _ hc, ?_, hlink _ ho, ?_, hlink _ hb, ?_, ?_⟩
  · show (match opp.XLP_BrokerName__r with
          | some r => r.Name
          | none => JField.null) = JField.null
    rw [hbr]
  · show (match opp.XLP_ClientName__r with
          | some r => r.Name
          | none => JField.null) = JField.null
    rw [hcr]
  · show (match opp.Owner with
          | some r => r.Name
          | none => JField.null) = JField.null
    rw [hor]
  · show (match opp.XLP_BrokerName__r with
          | some r => r.Name
          | none => JField.str "") = JField.str ""
    rw [hbr]
  · intro f s hf
    cases f with
    | null => simp [derivedLink] at hf
    | undef => simp [derivedLink] at hf
    | str t =>
        by_cases ht : t = ""
        · rw [ht] at hf
          simp [derivedLink] at hf
        · simp only [derivedLink, if_neg ht] at hf
          injection hf with hs
          rw [← hs]
          apply ne_empty_of_len_pos
          rw [String.length_append]
          have hone : ("/" : String).length = 1 := rfl
          omega

/-- C9 witness: the bare record with no relationship data. -/
theorem enrichment_amended_witness :
    (wiredOppsMap bareOpp).brokerLink = JField.null
    ∧ (wiredOppsMap bareOpp).BrokerName = JField.null
    ∧ (wiredOppsMap bareOpp).insuredLink = JField.null
    ∧ (wiredOppsMap bareOpp).InsuredName = JField.null
    ∧ (wiredOppsMap bareOpp).ownerLink = JField.null
    ∧ (wiredOppsMap bareOpp).OwnerName = JField.null
    ∧ (wiredOppsMapV2 bareOpp).accountLink = JField.null
    ∧ (wiredOppsMapV2 bareOpp).AccountName = JField.str ""
    ∧ (∀ (f : JField) (s : String), derivedLink f = JField.str s → s ≠ "") :=
  enrichment_amended bareOpp ⟨Or.inl rfl, rfl, Or.inl rfl, rfl, Or.inl rfl, rfl⟩

/-- C10 (confirmed): the normalized getters wired to the read collaborator
pass true exactly for the boolean true and the exact lowercase string
value true of the source comparison; every other host-supplied value,
including other strings, numbers and objects, is passed as false, and the
getters are boolean-valued by construction. -/
theorem normalizeBoolean_strict (v : ApiValue)
    (h1 : v ≠ ApiValue.bool true) (h2 : v ≠ ApiValue.str "true") :
    normalizedRequireExpiryDate v = false
    ∧ normalizedRequireInceptionDate v = false
    ∧ normalizedRequireExpiryDate (ApiValue.bool true) = true
    ∧ normalizedRequireInceptionDate (ApiValue.str "true") = true := by
  have hfalse : normalizeBoolean v = false := by
    unfold normalizeBoolean
    rw [decide_eq_false h1, decide_eq_false h2]
    rfl
  exact ⟨hfalse, hfalse, rfl, rfl⟩

/-- C10 witness: the uppercase string TRUE normalizes to false while the
boolean true and the lowercase string normalize to true. -/
theorem normalizeBoolean_strict_witness :
    normalizedRequireExpiryDate (ApiValue.str "TRUE") = false
    ∧ normalizedRequireInceptionDate (ApiValue.str "TRUE") = false
    ∧ normalizedRequireExpiryDate (ApiValue.bool true) = true
    ∧ normalizedRequireInceptionDate (ApiValue.str "true") = true :=
  normalizeBoolean_strict (ApiValue.str "TRUE") (by decide) (by decide)
